import Mathlib

/-!
Verification of the agent run-graph specification against the repository
`My-Projects` (Context Engineering examples).  Pure fragments of the Python
sources are embedded shallowly as Lean functions; effectful collaborators
(the HTTP backend, the model transport, the nested email-agent run) are
passed in explicitly as data so that every embedded function is total and
executable.  Components of the specified core that live in the pydantic_ai
library or in repository modules absent from src/ (the run-graph driver, the
tool dispatcher, the usage accumulator, the email agent) are modelled from
the spec and marked as such in their doc comments.
-/

namespace Spec2Proof

/-- Modelled from the spec: `UsageCounters` (section 3) -- mergeable
request/response unit counters.  The accumulator implementation lives in the
pydantic_ai library, not under src/; the spec (section 4.5) requires `merge`
to be purely additive. -/
structure UsageCounters where
  request_units : Nat
  response_units : Nat
deriving DecidableEq

/-- Modelled from the spec: `merge(into, from)` is purely additive (section 4.5). -/
def UsageCounters.merge (into nested : UsageCounters) : UsageCounters :=
  ⟨into.request_units + nested.request_units,
   into.response_units + nested.response_units⟩

/-- Modelled from the spec: the outcome of driving the nested email-agent
session (DelegationBridge, section 4.4).  The email agent module
(`email_agent.py`) is not under src/.  A nested run either completes with an
output or fails with an exception message; in both cases it carries the usage
the nested session accrued up to that point (the source passes
`usage=ctx.usage` so accrual is shared with the parent in place). -/
inductive NestedRunOutcome where
  | ok (output : String) (usage : UsageCounters)
  | failed (errMsg : String) (usage : UsageCounters)

/-- Embeds the dictionary returned by `create_email_draft`
(`src/Context Engineering/examples/main_agent_reference/research_agent.py`,
lines 158-173): `success`, `agent_response` (success only), `error`
(failure only), `recipient`, `subject`, `context` (success only). -/
structure EmailDraftPayload where
  success : Bool
  agent_response : Option String
  error : Option String
  recipient : String
  subject : String
  context_field : Option String
deriving DecidableEq

/-- Shallow embedding of the tool `create_email_draft`
(`research_agent.py`, lines 94-173).  The function runs the email agent with
the parent usage accumulator (`usage=ctx.usage`), so the parent usage after
the call is the pre-delegation usage merged with the usage accrued by the
nested run; the `except` clause turns any nested failure into a structured
payload with `success=False` and the error message, never re-raising. -/
def create_email_draft (parentUsage : UsageCounters) (nested : NestedRunOutcome)
    (recipient_email subject context_arg : String) :
    UsageCounters × EmailDraftPayload :=
  match nested with
  | .ok out u =>
      (parentUsage.merge u,
       ⟨true, some out, none, recipient_email, subject, some context_arg⟩)
  | .failed e u =>
      (parentUsage.merge u,
       ⟨false, none, some e, recipient_email, subject, none⟩)

/-- Embeds the Python guard `not s or not s.strip()` used by `search_web_tool`
(`tools.py`, lines 45-49): true exactly when the string is empty or consists
only of whitespace. -/
def isBlank (s : String) : Bool := s.data.all Char.isWhitespace

/-- Embeds `min(max(count, 1), 20)`, the clamp applied both by `search_web`
(`research_agent.py`, line 77) and by `search_web_tool` (`tools.py`, line 52). -/
def clampCount (c : Int) : Int := min (max c 1) 20

/-- One raw entry of the `web.results` array of the Brave backend response,
as read by `search_web_tool` (`tools.py`, lines 96-110). -/
structure RawResult where
  title : String
  url : String
  description : String
deriving DecidableEq

/-- Embeds the position score of `search_web_tool` (`tools.py`, lines
101-103): `score = 1.0 - idx * 0.05` followed by `score = max(score, 0.1)`,
with the decimal literals read as exact rationals. -/
def brave_score (idx : Nat) : ℚ := max (1 - (idx : ℚ) * 0.05) 0.1

/-- One converted search-result dictionary produced by `search_web_tool`. -/
structure BraveEntry where
  title : String
  url : String
  description : String
  score : ℚ
deriving DecidableEq

/-- Embeds the `for idx, result in enumerate(web_results)` conversion loop of
`search_web_tool` (`tools.py`, lines 99-110), carrying the running index. -/
def braveEntries : Nat → List RawResult → List BraveEntry
  | _, [] => []
  | idx, r :: rs =>
      ⟨r.title, r.url, r.description, brave_score idx⟩ :: braveEntries (idx + 1) rs

/-- The answer of the backend to the single GET request `search_web_tool`
makes: either an HTTP response (status code, body text, parsed `web.results`)
or a transport-level failure (`httpx.RequestError`). -/
inductive HttpResult where
  | response (status : Nat) (text : String) (webResults : List RawResult)
  | requestFailure (msg : String)

/-- The exception message raised by `search_web_tool` on HTTP status 429
(`tools.py`, line 83). -/
def rate_limit_message : String :=
  "Rate limit exceeded. Check your Brave API quota."

/-- The exception message raised by `search_web_tool` on HTTP status 401
(`tools.py`, line 87). -/
def invalid_key_message : String := "Invalid Brave API key"

/-- The exception message raised by `search_web_tool` on any other non-200
HTTP status (`tools.py`, line 91). -/
def upstream_error_message (status : Nat) (text : String) : String :=
  "Brave API returned " ++ toString status ++ ": " ++ text

/-- The observable outcome of one `search_web_tool` call: the returned list
or the raised exception message, the `count` parameter of the request that
was sent (`none` when no request was made), and how many HTTP requests were
performed. -/
structure BraveCall where
  outcome : Except String (List BraveEntry)
  requestCount : Option Int
  httpRequests : Nat

/-- Shallow embedding of `search_web_tool` (`tools.py`, lines 19-120):
validates the API key and the query before any HTTP activity, clamps `count`
to the interval from 1 to 20, performs one GET request, and maps status 429,
status 401, any other non-200 status and transport errors to distinct raised
exception messages; on status 200 it converts the raw results with the
position score. -/
def search_web_tool (api_key query : String) (count : Int) (resp : HttpResult) :
    BraveCall :=
  if isBlank api_key then ⟨.error "Brave API key is required", none, 0⟩
  else if isBlank query then ⟨.error "Query cannot be empty", none, 0⟩
  else
    let count := clampCount count
    match resp with
    | .requestFailure m => ⟨.error ("Request failed: " ++ m), some count, 1⟩
    | .response status text webResults =>
        if status = 429 then ⟨.error rate_limit_message, some count, 1⟩
        else if status = 401 then ⟨.error invalid_key_message, some count, 1⟩
        else if status ≠ 200 then
          ⟨.error (upstream_error_message status text), some count, 1⟩
        else ⟨.ok (braveEntries 0 webResults), some count, 1⟩

/-- One element of the list returned by the tool `search_web`
(`research_agent.py`, lines 59-90): either a converted search-result
dictionary or the single error dictionary built in the `except` clause. -/
inductive SearchEntry where
  | result (e : BraveEntry)
  | errorDict (msg : String)
deriving DecidableEq

/-- Whether the dictionary carries an `error` key. -/
def SearchEntry.hasErrorKey : SearchEntry → Bool
  | .errorDict _ => true
  | .result _ => false

/-- Shallow embedding of the tool `search_web` (`research_agent.py`, lines
59-90): clamps `max_results`, delegates to `search_web_tool`, and converts
any exception raised inside the body into a one-element list holding an
error dictionary. -/
def search_web (api_key query : String) (max_results : Int) (resp : HttpResult) :
    List SearchEntry :=
  let max_results := clampCount max_results
  match (search_web_tool api_key query max_results resp).outcome with
  | .ok rs => rs.map SearchEntry.result
  | .error e => [.errorDict ("Search failed: " ++ e)]

/-- Shallow embedding of the tool `calculate`
(`src/Context Engineering/examples/tool_enabled_agent/agent.py`, lines
186-229).  The evaluation of the sanitized expression is passed in as its
outcome: the value rendered to a string, or the raised exception message.
An exception yields the error string of the `except` clause; success yields
the formatted output, prefixed with the description when one is given. -/
def calculate (expression : String) (description : Option String)
    (evalOutcome : Except String String) : String :=
  match evalOutcome with
  | .ok r =>
      let output := "Calculation: " ++ expression ++ " = " ++ r
      match description with
      | some d => d ++ "\n" ++ output
      | none => output
  | .error e => "Calculation error: " ++ e ++ "\nExpression: " ++ expression

/-- Modelled from the spec: the error taxonomy surfaced as tool results by
the dispatcher (sections 4.3 and 7); the dispatcher is pydantic_ai library
code, not under src/. -/
inductive ToolError where
  | UnknownToolError
  | ValidationError (fields : List String)
  | ToolExecutionError (message : String)
deriving DecidableEq

/-- The result carried by a completed tool call: a value or a recovered
error. -/
inductive ToolOutcome where
  | ok (result : String)
  | err (e : ToolError)
deriving DecidableEq

/-- Modelled from the spec: a `ToolRegistration` (section 3) with its
argument schema reduced to the list of required field names and the handler
returning a value or a raised exception message. -/
structure ToolRegistration where
  name : String
  schema : List String
  handler : List (String × String) → Except String String

/-- The required fields of the schema that the argument dictionary does not
supply. -/
def missingFields (schema : List String) (args : List (String × String)) :
    List String :=
  schema.filter (fun f => (args.find? (fun p => p.1 == f)).isNone)

/-- The observable outcome of one `dispatch` call: the completed event and
whether the handler body was entered. -/
structure DispatchResult where
  completed_call_id : Nat
  outcome : ToolOutcome
  handlerInvoked : Bool

/-- Modelled from the spec: `dispatch(call_id, name, args)` (section 4.3);
the dispatcher is pydantic_ai library code, not under src/.  It looks the
name up (absent names yield `UnknownToolError` without invoking anything),
validates the arguments against the schema (a mismatch yields a
`ValidationError` listing every offending field, without invoking the
handler), and otherwise invokes the handler, converting a raised exception
into `ToolExecutionError`. -/
def dispatch (registry : List ToolRegistration) (call_id : Nat) (name : String)
    (args : List (String × String)) : DispatchResult :=
  match registry.find? (fun t => t.name == name) with
  | none => ⟨call_id, .err .UnknownToolError, false⟩
  | some t =>
      let missing := missingFields t.schema args
      if missing = [] then
        match t.handler args with
        | .ok r => ⟨call_id, .ok r, true⟩
        | .error m => ⟨call_id, .err (.ToolExecutionError m), true⟩
      else ⟨call_id, .err (.ValidationError missing), false⟩

/-- Modelled from the spec: the node variants of a session (section 3); the
run graph is the pydantic_ai driver consumed by `stream_agent_interaction`
(`cli.py`, lines 44-141), not under src/. -/
inductive Node where
  | userPrompt (prompt : String)
  | modelRequest
  | toolCall (results : List ToolOutcome)
  | endNode (result : Except String String)

/-- The kind tag of a node, for the consecutive-repetition invariant. -/
inductive NodeKind where
  | userPromptKind
  | modelRequestKind
  | toolCallKind
  | endNodeKind
deriving DecidableEq

/-- The kind of each node variant. -/
def Node.kind : Node → NodeKind
  | .userPrompt _ => .userPromptKind
  | .modelRequest => .modelRequestKind
  | .toolCall _ => .toolCallKind
  | .endNode _ => .endNodeKind

/-- Whether a node is the initial user-prompt node. -/
def Node.isUserPrompt : Node → Bool
  | .userPrompt _ => true
  | _ => false

/-- Whether a node is the terminal end node. -/
def Node.isEnd : Node → Bool
  | .endNode _ => true
  | _ => false

/-- Whether a node is a terminal end node carrying a failure payload. -/
def Node.isEndFailure : Node → Bool
  | .endNode (.error _) => true
  | _ => false

/-- Modelled from the spec: how the model backend ends a session after the
tool-call rounds -- a final output (the driver reaches `Done`) or an
unrecoverable transport failure during `Generating` (the driver reaches
`Failed`). -/
inductive FinalOutcome where
  | final (output : String)
  | transportFailure (msg : String)
deriving DecidableEq

/-- The payload of the terminal end node for each way a session ends. -/
def finalPayload : FinalOutcome → Except String String
  | .final out => .ok out
  | .transportFailure m => .error m

/-- Modelled from the spec: the `Generating` loop of the RunGraph Driver
(section 4.1), not under src/.  Each round of resolved tool calls produces a
`ModelRequestNode` then a `ToolCallNode` and loops back to `Generating`;
when no tool calls remain the final model stage produces a `ModelRequestNode`
and the terminal `EndNode` (carrying the output on `Done` and the failure
payload on `Failed`). -/
def genLoop : List (List ToolOutcome) → FinalOutcome → List Node
  | [], last => [.modelRequest, .endNode (finalPayload last)]
  | r :: rs, last => .modelRequest :: .toolCall r :: genLoop rs last

/-- Modelled from the spec: the node sequence of one driven session
(section 4.1): the initial `UserPromptNode` followed by the `Generating`
loop. -/
def driveNodes (prompt : String) (rounds : List (List ToolOutcome))
    (last : FinalOutcome) : List Node :=
  .userPrompt prompt :: genLoop rounds last

/-- The last node of a sequence, if any. -/
def lastNode : List Node → Option Node
  | [] => none
  | [n] => some n
  | _ :: n :: ns => lastNode (n :: ns)

/-- How many nodes of a sequence satisfy a predicate. -/
def countNodes (p : Node → Bool) : List Node → Nat
  | [] => 0
  | n :: ns => (if p n then 1 else 0) + countNodes p ns

/-- An HTTP client session (`aiohttp.ClientSession`) as observed through the
`closed` flag used by `ask_agent`. -/
structure HttpSession where
  sid : Nat
  closed : Bool
deriving DecidableEq

/-- Embeds the dependency dataclass `ToolDependencies`
(`tool_enabled_agent/agent.py`, lines 69-76), with its default values. -/
structure ToolDependencies where
  session : Option HttpSession := none
  api_timeout : Nat := 10
  max_search_results : Nat := 5
  calculation_precision : Nat := 6
  session_id : Option String := none
deriving DecidableEq

/-- The observable outcome of one `ask_agent` call: the returned answer or
the propagated exception, the state of the dependency session after the
`finally` block, how many `close()` calls `ask_agent` performed, and whether
it created the session itself. -/
structure AskOutcome where
  result : Except String String
  finalSession : Option HttpSession
  closesPerformed : Nat
  createdSession : Bool

/-- Shallow embedding of `ask_agent` (`tool_enabled_agent/agent.py`, lines
302-327).  When no dependencies are supplied it creates a fresh open session
(`freshId` names the session `aiohttp.ClientSession()` would return); the
agent run is passed in as a function returning the answer or the raised
exception and is modelled as not touching the session.  The `finally` block
closes `dependencies.session` whenever it is present and not yet closed --
whether or not this call created it. -/
def ask_agent (question : String) (dependencies : Option ToolDependencies)
    (run : String → ToolDependencies → Except String String) (freshId : Nat) :
    AskOutcome :=
  let deps : ToolDependencies :=
    match dependencies with
    | none => { session := some ⟨freshId, false⟩ }
    | some d => d
  let r := run question deps
  match deps.session with
  | some s =>
      if s.closed = false then ⟨r, some ⟨s.sid, true⟩, 1, dependencies.isNone⟩
      else ⟨r, some s, 0, dependencies.isNone⟩
  | none => ⟨r, none, 0, dependencies.isNone⟩

/-- Embeds the dataclass `ConversationContext`
(`basic_chat_agent/agent.py`, lines 62-68), with its default values. -/
structure ConversationContext where
  user_name : Option String := none
  conversation_count : Nat := 0
  preferred_language : String := "English"
  session_id : Option String := none
deriving DecidableEq

/-- Shallow embedding of `chat_with_agent` (`basic_chat_agent/agent.py`,
lines 114-134): a missing context is replaced by a fresh default one, the
conversation count is incremented in place, and the agent is run with the
context as dependencies.  The run is modelled as a pure function of the
message and the context: the chat agent registers no tools and its dynamic
system prompt only reads the context. -/
def chat_with_agent (message : String) (context : Option ConversationContext)
    (agentRun : String → ConversationContext → String) :
    ConversationContext × String :=
  let ctx := context.getD {}
  let ctx : ConversationContext :=
    { ctx with conversation_count := ctx.conversation_count + 1 }
  (ctx, agentRun message ctx)

/-- Shallow embedding of `chat_with_agent_sync` (`basic_chat_agent/agent.py`,
lines 137-157), whose body matches `chat_with_agent` with `run_sync` in
place of `run`. -/
def chat_with_agent_sync (message : String) (context : Option ConversationContext)
    (agentRun : String → ConversationContext → String) :
    ConversationContext × String :=
  let ctx := context.getD {}
  let ctx : ConversationContext :=
    { ctx with conversation_count := ctx.conversation_count + 1 }
  (ctx, agentRun message ctx)

/-- The concrete `ask_agent` call of claim C7: caller-supplied dependencies
holding an open session (session id 0), exactly as the demo in
`tool_enabled_agent/agent.py` (lines 349-371) supplies one shared session
to several consecutive `ask_agent` calls. -/
def askWithCallerSession : AskOutcome :=
  ask_agent "What is the current time?"
    (some { session := some ⟨0, false⟩ })
    (fun _ _ => .ok "It is noon.") 1

/-- The registration of the spec scenario for claim C4 (section 8): a tool
requiring a `query` string field, to be called with empty arguments. -/
def demoSearchTool : ToolRegistration :=
  ⟨"search_web", ["query"], fun _ => .ok "results"⟩

/-- Position scores of the converted entries: the entry at position `i` of
`braveEntries k rs` (when it exists) scores `brave_score (k + i)`. -/
theorem braveEntries_score_at :
    ∀ (rs : List RawResult) (k i : Nat),
      ((braveEntries k rs)[i]?).map BraveEntry.score
        = (rs[i]?).map (fun _ => brave_score (k + i)) := by
  intro rs
  induction rs with
  | nil => intro k i; rfl
  | cons r rs ih =>
      intro k i
      cases i with
      | zero => simp [braveEntries]
      | succ i =>
          have h : k + 1 + i = k + (i + 1) := by omega
          have h2 := ih (k + 1) i
          rw [h] at h2
          simpa [braveEntries] using h2

/-- The generating loop never produces an empty node sequence. -/
theorem genLoop_ne_nil :
    ∀ (rounds : List (List ToolOutcome)) (last : FinalOutcome),
      genLoop rounds last ≠ [] := by
  intro rounds last
  cases rounds <;> simp [genLoop]

/-- The generating loop always starts with a model-request node. -/
theorem genLoop_head :
    ∀ (rounds : List (List ToolOutcome)) (last : FinalOutcome),
      (genLoop rounds last).head? = some Node.modelRequest := by
  intro rounds last
  cases rounds <;> rfl

/-- Dropping the head of a nonempty tail keeps the last node. -/
theorem lastNode_cons :
    ∀ (a : Node) (l : List Node), l ≠ [] → lastNode (a :: l) = lastNode l := by
  intro a l h
  cases l with
  | nil => exact absurd rfl h
  | cons b bs => rfl

/-- The generating loop always ends with the terminal end node carrying the
payload of the final outcome. -/
theorem lastNode_genLoop :
    ∀ (rounds : List (List ToolOutcome)) (last : FinalOutcome),
      lastNode (genLoop rounds last) = some (.endNode (finalPayload last)) := by
  intro rounds
  induction rounds with
  | nil => intro last; rfl
  | cons r rs ih =>
      intro last
      have h1 : lastNode (genLoop (r :: rs) last)
          = lastNode (Node.toolCall r :: genLoop rs last) := rfl
      rw [h1, lastNode_cons _ _ (genLoop_ne_nil rs last)]
      exact ih last

/-- The generating loop contains no user-prompt node. -/
theorem countNodes_genLoop_userPrompt :
    ∀ (rounds : List (List ToolOutcome)) (last : FinalOutcome),
      countNodes Node.isUserPrompt (genLoop rounds last) = 0 := by
  intro rounds
  induction rounds with
  | nil => intro last; rfl
  | cons r rs ih =>
      intro last
      simpa [genLoop, countNodes, Node.isUserPrompt] using ih last

/-- The generating loop contains exactly one terminal end node. -/
theorem countNodes_genLoop_end :
    ∀ (rounds : List (List ToolOutcome)) (last : FinalOutcome),
      countNodes Node.isEnd (genLoop rounds last) = 1 := by
  intro rounds
  induction rounds with
  | nil => intro last; rfl
  | cons r rs ih =>
      intro last
      simpa [genLoop, countNodes, Node.isEnd] using ih last

/-- A session whose model backend delivers a final output contains no
failure end node, whatever the dispatched tool rounds returned. -/
theorem countNodes_genLoop_endFailure :
    ∀ (rounds : List (List ToolOutcome)) (out : String),
      countNodes Node.isEndFailure (genLoop rounds (.final out)) = 0 := by
  intro rounds
  induction rounds with
  | nil => intro out; rfl
  | cons r rs ih =>
      intro out
      simpa [genLoop, countNodes, Node.isEndFailure] using ih out

/-- Adjacent nodes of the generating loop never share a kind. -/
theorem genLoop_chain :
    ∀ (rounds : List (List ToolOutcome)) (last : FinalOutcome),
      List.Chain' (fun a b => a.kind ≠ b.kind) (genLoop rounds last) := by
  intro rounds
  induction rounds with
  | nil =>
      intro last
      simp [genLoop, List.chain'_cons, Node.kind]
  | cons r rs ih =>
      intro last
      have h1 : genLoop (r :: rs) last
          = Node.modelRequest :: Node.toolCall r :: genLoop rs last := rfl
      rw [h1, List.chain'_cons]
      refine ⟨by simp [Node.kind], ?_⟩
      rw [List.chain'_cons']
      refine ⟨?_, ih last⟩
      intro y hy
      rw [genLoop_head rs last] at hy
      simp only [Option.mem_def, Option.some.injEq] at hy
      subst hy
      simp [Node.kind]

/-- C1: merging the usage of a completed nested email-agent run into the
parent is exact addition on both counters (no double counting, no loss), and
merging a nested usage of request 3 / response 5 into a parent usage of
request 10 / response 2 yields exactly request 13 / response 7. -/
theorem delegation_usage_exact :
    (∀ (parent nestedUsage : UsageCounters) (out r s c : String),
      (create_email_draft parent (.ok out nestedUsage) r s c).1.request_units
          = parent.request_units + nestedUsage.request_units
      ∧ (create_email_draft parent (.ok out nestedUsage) r s c).1.response_units
          = parent.response_units + nestedUsage.response_units)
    ∧ UsageCounters.merge ⟨10, 2⟩ ⟨3, 5⟩ = ⟨13, 7⟩ :=
  ⟨fun _ _ _ _ _ _ => ⟨rfl, rfl⟩, rfl⟩

/-- C3: when the nested email-agent run fails, `create_email_draft` still
merges the usage accrued before the failure into the parent, and returns a
structured failure payload (success = false, carrying the error message)
instead of re-raising. -/
theorem delegation_failure_payload :
    ∀ (parent accrued : UsageCounters) (e r s c : String),
      (create_email_draft parent (.failed e accrued) r s c).1
          = parent.merge accrued
      ∧ (create_email_draft parent (.failed e accrued) r s c).2.success = false
      ∧ (create_email_draft parent (.failed e accrued) r s c).2.error = some e :=
  fun _ _ _ _ _ _ => ⟨rfl, rfl, rfl⟩

/-- C6: `search_web_tool` maps HTTP status 429 to the rate-limit error,
status 401 to the authentication error, and every other non-200 status to
the generic upstream error, and the three error messages are pairwise
distinguishable. -/
theorem backend_error_kinds :
    ∀ (api_key query text : String) (count : Int) (rs : List RawResult)
      (status : Nat),
      isBlank api_key = false → isBlank query = false →
      (search_web_tool api_key query count (.response 429 text rs)).outcome
          = .error rate_limit_message
      ∧ (search_web_tool api_key query count (.response 401 text rs)).outcome
          = .error invalid_key_message
      ∧ (status ≠ 200 → status ≠ 429 → status ≠ 401 →
          (search_web_tool api_key query count (.response status text rs)).outcome
            = .error (upstream_error_message status text))
      ∧ rate_limit_message ≠ invalid_key_message
      ∧ upstream_error_message status text ≠ rate_limit_message
      ∧ upstream_error_message status text ≠ invalid_key_message := by
  intro api_key query text count rs status hkey hquery
  refine ⟨?_, ?_, ?_, ?_, ?_, ?_⟩
  · simp [search_web_tool, hkey, hquery]
  · simp [search_web_tool, hkey, hquery]
  · intro h200 h429 h401
    simp [search_web_tool, hkey, hquery, h200, h429, h401]
  · decide
  · intro h
    have hh : (upstream_error_message status text).data.head?
        = rate_limit_message.data.head? := congrArg (fun s => s.data.head?) h
    have hb : (upstream_error_message status text).data.head? = some 'B' := rfl
    have hr : rate_limit_message.data.head? = some 'R' := rfl
    rw [hb, hr] at hh
    exact absurd hh (by decide)
  · intro h
    have hh : (upstream_error_message status text).data.head?
        = invalid_key_message.data.head? := congrArg (fun s => s.data.head?) h
    have hb : (upstream_error_message status text).data.head? = some 'B' := rfl
    have hi : invalid_key_message.data.head? = some 'I' := rfl
    rw [hb, hi] at hh
    exact absurd hh (by decide)

/-- C6 witness: the mapping and the distinguishability at a concrete key,
query, body text and status 500. -/
theorem backend_error_kinds_witness :
    isBlank "key" = false ∧ isBlank "ai agents" = false
    ∧ ((search_web_tool "key" "ai agents" 10 (.response 429 "busy" [])).outcome
        = .error rate_limit_message
      ∧ (search_web_tool "key" "ai agents" 10 (.response 401 "busy" [])).outcome
        = .error invalid_key_message
      ∧ ((500 ≠ 200 → 500 ≠ 429 → 500 ≠ 401 →
          (search_web_tool "key" "ai agents" 10 (.response 500 "busy" [])).outcome
            = .error (upstream_error_message 500 "busy")))
      ∧ rate_limit_message ≠ invalid_key_message
      ∧ upstream_error_message 500 "busy" ≠ rate_limit_message
      ∧ upstream_error_message 500 "busy" ≠ invalid_key_message) :=
  ⟨by decide, by decide,
   backend_error_kinds "key" "ai agents" "busy" 10 [] 500 (by decide) (by decide)⟩

/-- C8: the clamp used by both `search_web` and `search_web_tool` sends every
integer into the interval from 1 to 20, raising inputs below 1 to 1 and
lowering inputs above 20 to 20; `search_web_tool` uses exactly the clamped
count for the request, and the composition of the two layers (the inner call
`search_web` makes) is idempotent. -/
theorem search_count_clamped :
    ∀ (c : Int) (api_key query : String) (resp : HttpResult),
      isBlank api_key = false → isBlank query = false →
      (1 ≤ clampCount c ∧ clampCount c ≤ 20)
      ∧ (c < 1 → clampCount c = 1)
      ∧ (20 < c → clampCount c = 20)
      ∧ clampCount (clampCount c) = clampCount c
      ∧ (search_web_tool api_key query c resp).requestCount = some (clampCount c)
      ∧ (search_web_tool api_key query (clampCount c) resp).requestCount
          = some (clampCount c) := by
  intro c api_key query resp hkey hquery
  have hclamp : clampCount (clampCount c) = clampCount c := by
    unfold clampCount; omega
  refine ⟨⟨?_, ?_⟩, ?_, ?_, hclamp, ?_, ?_⟩
  · unfold clampCount; omega
  · unfold clampCount; omega
  · intro h; unfold clampCount; omega
  · intro h; unfold clampCount; omega
  · cases resp <;> simp [search_web_tool, hkey, hquery] <;> split_ifs <;> rfl
  · cases resp <;> simp [search_web_tool, hkey, hquery, hclamp] <;>
      split_ifs <;> simp [hclamp]

/-- C8 witness: clamping at the concrete counts 0 and 25 with a concrete
request. -/
theorem search_count_clamped_witness :
    (isBlank "key" = false ∧ isBlank "ai agents" = false
      ∧ ((1 ≤ clampCount 0 ∧ clampCount 0 ≤ 20)
        ∧ ((0 : Int) < 1 → clampCount 0 = 1)
        ∧ ((20 : Int) < 0 → clampCount 0 = 20)
        ∧ clampCount (clampCount 0) = clampCount 0
        ∧ (search_web_tool "key" "ai agents" 0
            (.response 200 "" [])).requestCount = some (clampCount 0)
        ∧ (search_web_tool "key" "ai agents" (clampCount 0)
            (.response 200 "" [])).requestCount = some (clampCount 0)))
    ∧ clampCount 25 = 20 :=
  ⟨⟨by decide, by decide,
    search_count_clamped 0 "key" "ai agents" (.response 200 "" [])
      (by decide) (by decide)⟩,
   by decide⟩

/-- C9: on a successful `search_web_tool` call the entry at zero-based
position `i` scores `max(1.0 - i * 0.05, 0.1)`; every score lies between
0.1 and 1.0 (so within the `BraveSearchResult` bound between 0.0 and 1.0)
and scores are non-increasing in the position. -/
theorem brave_result_scores :
    ∀ (rs : List RawResult) (api_key query text : String) (count : Int)
      (i j : Nat),
      isBlank api_key = false → isBlank query = false → i ≤ j →
      (search_web_tool api_key query count (.response 200 text rs)).outcome
          = .ok (braveEntries 0 rs)
      ∧ ((braveEntries 0 rs)[i]?).map BraveEntry.score
          = (rs[i]?).map (fun _ => brave_score i)
      ∧ brave_score i = max (1 - (i : ℚ) * 0.05) 0.1
      ∧ 0.1 ≤ brave_score i ∧ brave_score i ≤ 1
      ∧ brave_score j ≤ brave_score i := by
  intro rs api_key query text count i j hkey hquery hij
  refine ⟨?_, ?_, rfl, le_max_right _ _, ?_, ?_⟩
  · simp [search_web_tool, hkey, hquery]
  · simpa using braveEntries_score_at rs 0 i
  · apply max_le
    · have h : (0 : ℚ) ≤ (i : ℚ) * 0.05 := by positivity
      linarith
    · norm_num
  · apply max_le_max _ le_rfl
    have h2 : (i : ℚ) ≤ (j : ℚ) := by exact_mod_cast hij
    nlinarith

/-- C9 witness: the score facts at a concrete successful call with two
results and the positions 0 and 1. -/
theorem brave_result_scores_witness :
    isBlank "key" = false ∧ isBlank "ai agents" = false ∧ 0 ≤ 1
    ∧ ((search_web_tool "key" "ai agents" 10
          (.response 200 "" [⟨"t1", "u1", "d1"⟩, ⟨"t2", "u2", "d2"⟩])).outcome
        = .ok (braveEntries 0 [⟨"t1", "u1", "d1"⟩, ⟨"t2", "u2", "d2"⟩])
      ∧ ((braveEntries 0 [⟨"t1", "u1", "d1"⟩, ⟨"t2", "u2", "d2"⟩])[0]?).map
            BraveEntry.score
          = (([⟨"t1", "u1", "d1"⟩, ⟨"t2", "u2", "d2"⟩] :
              List RawResult)[0]?).map (fun _ => brave_score 0)
      ∧ brave_score 0 = max (1 - (0 : ℚ) * 0.05) 0.1
      ∧ 0.1 ≤ brave_score 0 ∧ brave_score 0 ≤ 1
      ∧ brave_score 1 ≤ brave_score 0) :=
  ⟨by decide, by decide, by decide,
   brave_result_scores [⟨"t1", "u1", "d1"⟩, ⟨"t2", "u2", "d2"⟩]
     "key" "ai agents" "" 10 0 1 (by decide) (by decide) (by decide)⟩

/-- C2: an exception inside the body of `search_web` is converted into a
one-element list whose single dictionary carries an `error` key; an
exception while evaluating the expression of `calculate` yields a string
beginning with `Calculation error:`; and in the driven session a round of
dispatched tool results (however they failed) is followed by another
generating stage, with the session ending in the terminal node of the final
model outcome rather than in a failed state. -/
theorem handler_errors_recovered :
    ∀ (api_key query : String) (mr : Int) (resp : HttpResult)
      (e expr out prompt : String) (desc : Option String)
      (rounds : List (List ToolOutcome)) (r : List ToolOutcome),
      (search_web_tool api_key query (clampCount mr) resp).outcome = .error e →
      search_web api_key query mr resp = [.errorDict ("Search failed: " ++ e)]
      ∧ (search_web api_key query mr resp).length = 1
      ∧ (∀ x ∈ search_web api_key query mr resp, x.hasErrorKey = true)
      ∧ (∃ t, (calculate expr desc (.error e)).data
            = ("Calculation error:").data ++ t)
      ∧ driveNodes prompt (r :: rounds) (.final out)
          = .userPrompt prompt :: .modelRequest :: .toolCall r
              :: genLoop rounds (.final out)
      ∧ countNodes Node.isEndFailure (driveNodes prompt rounds (.final out)) = 0
      ∧ lastNode (driveNodes prompt rounds (.final out))
          = some (.endNode (.ok out)) := by
  intro api_key query mr resp e expr out prompt desc rounds r h
  have hsw : search_web api_key query mr resp
      = [.errorDict ("Search failed: " ++ e)] := by
    simp [search_web, h]
  refine ⟨hsw, by rw [hsw]; rfl, ?_, ?_, rfl, ?_, ?_⟩
  · intro x hx
    rw [hsw] at hx
    simp only [List.mem_singleton] at hx
    subst hx
    rfl
  · exact ⟨' ' :: ((e.data ++ ("\nExpression: ").data) ++ expr.data), rfl⟩
  · simpa [driveNodes, countNodes, Node.isEndFailure] using
      countNodes_genLoop_endFailure rounds out
  · have h1 : lastNode (driveNodes prompt rounds (.final out))
        = lastNode (genLoop rounds (.final out)) :=
      lastNode_cons _ _ (genLoop_ne_nil rounds (.final out))
    rw [h1, lastNode_genLoop]
    rfl

/-- C2 witness: a concrete transport failure inside `search_web`, a concrete
failing `calculate` evaluation, and a concrete one-round session. -/
theorem handler_errors_recovered_witness :
    (search_web_tool "key" "ai agents" (clampCount 10)
        (.requestFailure "boom")).outcome = .error "Request failed: boom"
    ∧ (search_web "key" "ai agents" 10 (.requestFailure "boom")
          = [.errorDict ("Search failed: " ++ "Request failed: boom")]
      ∧ (search_web "key" "ai agents" 10 (.requestFailure "boom")).length = 1
      ∧ (∀ x ∈ search_web "key" "ai agents" 10 (.requestFailure "boom"),
          x.hasErrorKey = true)
      ∧ (∃ t, (calculate "1/0" none (.error "Request failed: boom")).data
            = ("Calculation error:").data ++ t)
      ∧ driveNodes "hi" ([[.err (.ToolExecutionError "Request failed: boom")]])
            (.final "done")
          = .userPrompt "hi" :: .modelRequest
              :: .toolCall [.err (.ToolExecutionError "Request failed: boom")]
              :: genLoop [] (.final "done")
      ∧ countNodes Node.isEndFailure (driveNodes "hi" [] (.final "done")) = 0
      ∧ lastNode (driveNodes "hi" [] (.final "done"))
          = some (.endNode (.ok "done"))) :=
  ⟨rfl,
   handler_errors_recovered "key" "ai agents" 10 (.requestFailure "boom")
     "Request failed: boom" "1/0" "done" "hi" none [] _ rfl⟩

/-- C4: a dispatch whose arguments miss required schema fields completes
with a `ValidationError` listing exactly the offending fields and never
enters the handler; and `search_web_tool` called with an empty (or
all-whitespace) query raises the validation error naming the query before
performing any HTTP request. -/
theorem validation_errors_listed :
    ∀ (registry : List ToolRegistration) (t : ToolRegistration)
      (call_id : Nat) (args : List (String × String))
      (api_key query : String) (c : Int) (resp : HttpResult),
      registry.find? (fun r => r.name == t.name) = some t →
      missingFields t.schema args ≠ [] →
      isBlank query = true → isBlank api_key = false →
      ((dispatch registry call_id t.name args).outcome
          = .err (.ValidationError (missingFields t.schema args))
        ∧ (dispatch registry call_id t.name args).handlerInvoked = false)
      ∧ ((search_web_tool api_key query c resp).outcome
          = .error "Query cannot be empty"
        ∧ (search_web_tool api_key query c resp).httpRequests = 0) := by
  intro registry t call_id args api_key query c resp hfind hmiss hq hk
  constructor
  · constructor <;> simp [dispatch, hfind, if_neg hmiss]
  · constructor <;> simp [search_web_tool, hk, hq]

/-- C4 witness: the spec scenario -- a registered tool requiring `query`
called with empty arguments, and `search_web_tool` called with the empty
query. -/
theorem validation_errors_listed_witness :
    [demoSearchTool].find? (fun r => r.name == demoSearchTool.name)
        = some demoSearchTool
    ∧ missingFields demoSearchTool.schema [] ≠ []
    ∧ isBlank "" = true ∧ isBlank "key" = false
    ∧ (((dispatch [demoSearchTool] 1 demoSearchTool.name []).outcome
          = .err (.ValidationError (missingFields demoSearchTool.schema []))
        ∧ (dispatch [demoSearchTool] 1 demoSearchTool.name []).handlerInvoked
            = false)
      ∧ ((search_web_tool "key" "" 10 (.response 200 "" [])).outcome
          = .error "Query cannot be empty"
        ∧ (search_web_tool "key" "" 10 (.response 200 "" [])).httpRequests
            = 0)) :=
  ⟨rfl, by decide, by decide, by decide,
   validation_errors_listed [demoSearchTool] demoSearchTool 1 []
     "key" "" 10 (.response 200 "" []) rfl (by decide) (by decide) (by decide)⟩

/-- C5: every driven session starts with exactly one user-prompt node, ends
with exactly one terminal end node (also when the session fails, where the
end node carries the failure payload), and no node kind repeats
consecutively. -/
theorem session_node_sequence :
    ∀ (prompt : String) (rounds : List (List ToolOutcome))
      (last : FinalOutcome),
      (driveNodes prompt rounds last).head? = some (.userPrompt prompt)
      ∧ countNodes Node.isUserPrompt (driveNodes prompt rounds last) = 1
      ∧ lastNode (driveNodes prompt rounds last)
          = some (.endNode (finalPayload last))
      ∧ countNodes Node.isEnd (driveNodes prompt rounds last) = 1
      ∧ (∀ m, lastNode (driveNodes prompt rounds (.transportFailure m))
          = some (.endNode (.error m)))
      ∧ List.Chain' (fun a b => a.kind ≠ b.kind) (driveNodes prompt rounds last) := by
  intro prompt rounds last
  have hlast : ∀ fin : FinalOutcome,
      lastNode (driveNodes prompt rounds fin)
        = some (.endNode (finalPayload fin)) := by
    intro fin
    have h1 : lastNode (driveNodes prompt rounds fin)
        = lastNode (genLoop rounds fin) :=
      lastNode_cons _ _ (genLoop_ne_nil rounds fin)
    rw [h1, lastNode_genLoop]
  refine ⟨rfl, ?_, hlast last, ?_, fun m => hlast (.transportFailure m), ?_⟩
  · simpa [driveNodes, countNodes, Node.isUserPrompt] using
      countNodes_genLoop_userPrompt rounds last
  · simpa [driveNodes, countNodes, Node.isEnd] using
      countNodes_genLoop_end rounds last
  · rw [show driveNodes prompt rounds last
        = Node.userPrompt prompt :: genLoop rounds last from rfl]
    rw [List.chain'_cons']
    refine ⟨?_, genLoop_chain rounds last⟩
    intro y hy
    rw [genLoop_head rounds last] at hy
    simp only [Option.mem_def, Option.some.injEq] at hy
    subst hy
    simp [Node.kind]

/-- C7 (evaluation at the failing input): called with caller-supplied
dependencies holding an open session -- the pattern of the demo in the same
module, which shares one session across consecutive calls -- `ask_agent`
closes the session it did not create: the call creates no session, yet
performs one close and leaves the caller session closed. -/
theorem ask_agent_closes_caller_session :
    askWithCallerSession.createdSession = false
    ∧ askWithCallerSession.closesPerformed = 1
    ∧ askWithCallerSession.finalSession = some ⟨0, true⟩
    ∧ askWithCallerSession.result = .ok "It is noon." :=
  ⟨rfl, rfl, rfl, rfl⟩

/-- C10: each call of `chat_with_agent` or `chat_with_agent_sync` with an
explicitly supplied context increments the conversation count by exactly one
and leaves the user name, the preferred language and the session id
unchanged. -/
theorem conversation_count_increment :
    ∀ (message : String) (ctx : ConversationContext)
      (agentRun : String → ConversationContext → String),
      (chat_with_agent message (some ctx) agentRun).1.conversation_count
          = ctx.conversation_count + 1
      ∧ (chat_with_agent message (some ctx) agentRun).1.user_name
          = ctx.user_name
      ∧ (chat_with_agent message (some ctx) agentRun).1.preferred_language
          = ctx.preferred_language
      ∧ (chat_with_agent message (some ctx) agentRun).1.session_id
          = ctx.session_id
      ∧ (chat_with_agent_sync message (some ctx) agentRun).1.conversation_count
          = ctx.conversation_count + 1
      ∧ (chat_with_agent_sync message (some ctx) agentRun).1.user_name
          = ctx.user_name
      ∧ (chat_with_agent_sync message (some ctx) agentRun).1.preferred_language
          = ctx.preferred_language
      ∧ (chat_with_agent_sync message (some ctx) agentRun).1.session_id
          = ctx.session_id :=
  fun _ _ _ => ⟨rfl, rfl, rfl, rfl, rfl, rfl, rfl, rfl⟩

end Spec2Proof
